import Mathlib

/-!
Verification of the resilient caching request layer of the m3u2spotify repository.

The development shallowly embeds the Python sources:

* `musify/api/cache/backend/sqlite.py` — `SQLiteTable` and `SQLiteCache`;
* `musify/api/cache/session.py` — `CachedSession`;
* `syncify/utils_new/api.py` — `APIAuthoriser`.

Timestamps are modelled as integers (ISO-8601 strings compare chronologically,
so `expires_at > now` becomes an integer comparison).  The json library
contract (`json.loads (json.dumps v) = v`) is modelled by letting every stored
text value carry the result `json.loads` would produce on it.  Parts of the
repository that are referenced but absent from the sources (the cache backend
base module and the Request Handler, for which only tests exist) are modelled
from the specification; each such definition says so in its doc comment.
-/

/-- A JSON document, the payload shape the cache stores. -/
inductive Json where
  | null
  | bool (b : Bool)
  | num (n : Int)
  | str (s : String)
  | arr (items : List Json)
  | obj (fields : List (String × Json))

mutual

/-- Minimal JSON encoder standing for `json.dumps` (string escaping elided,
which no claim depends on). -/
def Json.encode : Json → String
  | .null => "null"
  | .bool b => if b then "true" else "false"
  | .num n => toString n
  | .str s => "\"" ++ s ++ "\""
  | .arr xs => "[" ++ Json.encodeList xs ++ "]"
  | .obj fs => "\x7b" ++ Json.encodeObj fs ++ "\x7d"

/-- Encode the elements of a JSON array. -/
def Json.encodeList : List Json → String
  | [] => ""
  | [x] => Json.encode x
  | x :: y :: xs => Json.encode x ++ "," ++ Json.encodeList (y :: xs)

/-- Encode the fields of a JSON object. -/
def Json.encodeObj : List (String × Json) → String
  | [] => ""
  | [(k, v)] => "\"" ++ k ++ "\":" ++ Json.encode v
  | (k, v) :: f :: fs => "\"" ++ k ++ "\":" ++ Json.encode v ++ "," ++ Json.encodeObj (f :: fs)

end

/-- A Python text value together with the result `json.loads` yields on it:
`parsed = none` models text that is not valid JSON.  Carrying the parse result
models the json library contract without re-implementing a string parser. -/
structure PyText where
  raw : String
  parsed : Option Json

/-- `json.dumps` on a JSON-serializable object: the encoded text parses back
to the same document. -/
def Json.dumps (v : Json) : PyText := ⟨v.encode, some v⟩

/-- A Python value handed to `serialize`/`set`: either a JSON-serializable
object or an already-textual value (`str`). -/
inductive PyVal where
  | json (v : Json)
  | text (t : PyText)

/-- One component of a cache key tuple: Python keys mix strings and ints. -/
inductive KeyPart where
  | s (v : String)
  | i (v : Int)
deriving DecidableEq

/-- A cache key: the tuple built by `SQLiteTable.get_key_from_request`. -/
abbrev CacheKey := List KeyPart

/-- A parsed URL: path segments and query parameters. -/
structure Url where
  path : List String
  query : List (String × String)
deriving DecidableEq

/-- An outbound HTTP request descriptor: method and target URL. -/
structure HttpRequest where
  method : String
  url : Url
deriving DecidableEq

/-- Modelled from the spec: `PaginatedRequestSettings` of the missing
`musify/api/cache/backend/base.py` — rules extracting the page window
(offset and page size) from the query parameters of a URL. -/
structure PaginationRule where
  get_offset : List (String × String) → Int
  get_limit : List (String × String) → Int

/-- Modelled from the spec: `RequestSettings` of the missing
`musify/api/cache/backend/base.py` — the per-repository endpoint family:
its name, the rule extracting a resource id from the URL path
("Resource id is extracted from the URL path by a per-Repository rule"),
a diagnostic name hint for stored payloads, and the pagination rules when
the family is paginated (`isinstance(settings, PaginatedRequestSettings)`). -/
structure RequestSettings where
  name : String
  get_id : List String → Option String
  get_name : PyVal → Option String
  pagination : Option PaginationRule

/-- The number of primary key columns of the table for a family:
`SQLiteTable._primary_key_columns` has `method`, `id`, plus `offset`, `size`
when the settings are paginated. -/
def RequestSettings.numKeyCols (s : RequestSettings) : Nat :=
  if s.pagination.isSome then 4 else 2

/-- `RepositoryRequestType`: repository operations accept either a raw key or
a request (a `Response` contributes its underlying request, folded into the
request case here). -/
inductive RepoRequest where
  | key (k : CacheKey)
  | http (r : HttpRequest)

/-- `SQLiteTable.get_key_from_request`: a raw key is returned as given; for a
request, the id is extracted from the URL (a missing or empty id yields no
key, `if not id_`), and the key is `(method, id)` extended with
`(offset, size)` for a paginated family. -/
def RequestSettings.get_key_from_request (s : RequestSettings) : RepoRequest → Option CacheKey
  | .key k => some k
  | .http r =>
    match s.get_id r.url.path with
    | none => none
    | some id_ =>
      if id_ = "" then none
      else
        let base := [KeyPart.s r.method, KeyPart.s id_]
        match s.pagination with
        | none => some base
        | some p => some (base ++ [KeyPart.i (p.get_offset r.url.query), KeyPart.i (p.get_limit r.url.query)])

/-- One row of the table for a family: the primary key tuple plus the `name`,
`cached_at`, `expires_at` and `data` columns. -/
structure Row where
  key : CacheKey
  name : Option String
  cached_at : Int
  expires_at : Int
  data : Option PyText

/-- The state of one `SQLiteTable`: its settings, the configured ttl
(`expire` timedelta, in seconds) and the stored rows. -/
structure SQLiteTable where
  settings : RequestSettings
  ttl : Int
  rows : List Row

/-- An error raised by the sqlite driver: `typeError` models building the
parameter tuple from a `None` key (or binding `None` as the parameter
sequence); `programmingError` models a placeholder/parameter arity
mismatch. -/
inductive DbError where
  | typeError
  | programmingError
deriving DecidableEq

/-- `SQLiteTable.serialize`: a `str` input is kept as is when it parses as
JSON and rejected (`None`) otherwise; any other value is `json.dumps`-ed. -/
def SQLiteTable.serialize (_t : SQLiteTable) : PyVal → Option PyText
  | .text txt => match txt.parsed with
    | none => none
    | some _ => some txt
  | .json v => some (Json.dumps v)

/-- `SQLiteTable.deserialize`: a dict input is returned as is; text is
`json.loads`-ed, with malformed text degrading to `None`. -/
def SQLiteTable.deserialize (_t : SQLiteTable) : PyVal → Option Json
  | .json v => some v
  | .text txt => txt.parsed

/-- `SQLiteTable.count`: row count, restricted to non-expired rows
(`expires_at > now`) unless expired rows are included. -/
def SQLiteTable.count (t : SQLiteTable) (now : Int) (expired : Bool := true) : Nat :=
  if expired then t.rows.length
  else (t.rows.filter (fun r => decide (now < r.expires_at))).length

/-- `SQLiteTable.contains`: counts non-expired rows matching the derived key.
The derived key is spliced into the parameter tuple unguarded, so a request
whose key derivation fails raises, as does a key of the wrong arity. -/
def SQLiteTable.contains (t : SQLiteTable) (now : Int) (request : RepoRequest) : Except DbError Bool :=
  match t.settings.get_key_from_request request with
  | none => .error .typeError
  | some k =>
    if k.length ≠ t.settings.numKeyCols then .error .programmingError
    else .ok (t.rows.any (fun r => decide (now < r.expires_at) && decide (r.key = k)))

/-- `SQLiteTable.get_response`: returns the deserialized payload of the
matching row provided its data is non-null and it has not expired; a falsy
derived key returns `None` (`if not key`). -/
def SQLiteTable.get_response (t : SQLiteTable) (now : Int) (request : RepoRequest) :
    Except DbError (Option Json) :=
  match t.settings.get_key_from_request request with
  | none => .ok none
  | some k =>
    if k = [] then .ok none
    else if k.length ≠ t.settings.numKeyCols then .error .programmingError
    else
      match t.rows.find? (fun r => r.data.isSome && decide (now < r.expires_at) && decide (r.key = k)) with
      | none => .ok none
      | some r =>
        match r.data with
        | none => .ok none
        | some txt => .ok (t.deserialize (.text txt))

/-- `SQLiteTable._set_item_from_key_value_pair`: `INSERT OR REPLACE` of the
row for the key, stamping `cached_at = now` and, modelled from the spec for
the `expire` property of the missing base module,
`expires_at = cached_at + configured_ttl`. -/
def SQLiteTable.set_item_from_key_value_pair (t : SQLiteTable) (now : Int) (k : CacheKey)
    (value : PyVal) : Except DbError SQLiteTable :=
  if k.length ≠ t.settings.numKeyCols then .error .programmingError
  else
    .ok { t with rows :=
      t.rows.filter (fun r => decide (r.key ≠ k)) ++
        [⟨k, t.settings.get_name value, now, now + t.ttl, t.serialize value⟩] }

/-- `SQLiteTable.delete_response`: deletes the rows matching the derived key
and reports whether anything was removed; like `contains`, it binds the
derived key unguarded and raises when derivation fails. -/
def SQLiteTable.delete_response (t : SQLiteTable) (request : RepoRequest) :
    Except DbError (Bool × SQLiteTable) :=
  match t.settings.get_key_from_request request with
  | none => .error .typeError
  | some k =>
    if k.length ≠ t.settings.numKeyCols then .error .programmingError
    else
      let remaining := t.rows.filter (fun r => decide (r.key ≠ k))
      .ok (t.rows.any (fun r => decide (r.key = k)), { t with rows := remaining })

/-- An API-layer error; `cacheError` is `musify.api.exception.CacheError`. -/
inductive ApiErr where
  | cacheError (msg : String)
deriving DecidableEq

/-- The state of one `SQLiteCache`: its name, configured ttl, the registered
repositories keyed by family name, and — modelled from the spec for the
missing base module — the `repository_getter` resolving the owning family
name from a URL ("resolves or lazily creates the Repository for the owning
family"). -/
structure SQLiteCache where
  cache_name : String
  ttl : Int
  repositories : List (String × SQLiteTable)
  repository_getter : Option (Url → Option String)

/-- `settings.name in self`: whether a repository is registered under the
family name. -/
def SQLiteCache.member (c : SQLiteCache) (name : String) : Bool :=
  c.repositories.any (fun p => p.1 = name)

/-- `SQLiteCache.create_repository`: raises `CacheError` when the family name
is already registered (before any mutation), otherwise runs the idempotent
DDL (`SQLiteTable.create`, which touches no rows) and registers the new
repository.  The second component is the cache state after the call. -/
def SQLiteCache.create_repository (c : SQLiteCache) (s : RequestSettings) :
    Except ApiErr SQLiteTable × SQLiteCache :=
  if c.member s.name then
    (.error (.cacheError ("Repository already exists: " ++ s.name)), c)
  else
    let t : SQLiteTable := ⟨s, c.ttl, []⟩
    (.ok t, { c with repositories := c.repositories ++ [(s.name, t)] })

/-- Modelled from the spec: `ResponseCache.get_repository_from_url` of the
missing base module — resolve the owning family via the configured getter,
then look the repository up by name; `None` when no getter is configured or
no family matches. -/
def SQLiteCache.get_repository_from_url (c : SQLiteCache) (url : Url) :
    Option (String × SQLiteTable) :=
  match c.repository_getter with
  | none => none
  | some getter =>
    match getter url with
    | none => none
    | some name => c.repositories.find? (fun p => p.1 = name)

/-- Modelled from the spec: `ResponseCache.get_repository_from_requests` of
the missing base module, applied to the single request the session resolves
("Resolve the owning Repository via the Cache using the descriptor"). -/
def SQLiteCache.get_repository_from_requests (c : SQLiteCache) (r : HttpRequest) :
    Option (String × SQLiteTable) :=
  c.get_repository_from_url r.url

/-- Replace the table registered under a family name. -/
def SQLiteCache.set_repository (c : SQLiteCache) (name : String) (t : SQLiteTable) : SQLiteCache :=
  { c with repositories := c.repositories.map (fun p => if p.1 = name then (name, t) else p) }

/-- A network response as the session sees it: status, the request it answered
(`request_info`) and its body text. -/
structure NetResponse where
  status : Nat
  request : HttpRequest
  bodyText : PyText

/-- Modelled from the spec: `ResponseRepository.save_response` of the missing
base module — "write the fresh response into the resolved Repository keyed by
the original request"; a request from which no key can be derived is skipped. -/
def SQLiteTable.save_response (t : SQLiteTable) (now : Int) (resp : NetResponse) :
    Except DbError SQLiteTable :=
  match t.settings.get_key_from_request (.http resp.request) with
  | none => .ok t
  | some k => t.set_item_from_key_value_pair now k (.text resp.bodyText)

/-- The value yielded by `CachedSession.request`: either a `CachedResponse`
wrapping stored data, or the fresh `ClientResponse` from the network. -/
inductive SessionResponse where
  | cached (data : Option String) (request : HttpRequest)
  | fresh (resp : NetResponse)

/-- An error raised inside `CachedSession.request`: `invalidURL` from URL
building, `attrNone` from calling a method on an unresolved (`None`)
repository, or a propagated database error. -/
inductive SessionError where
  | invalidURL
  | attrNone
  | db (e : DbError)

/-- The outcome of one `CachedSession.request` call: the yielded response,
how many network calls were made, and the cache state once the call is
finished. -/
structure RequestOutcome where
  response : SessionResponse
  networkCalls : Nat
  cache : SQLiteCache

/-- `CachedSession._get_cached_response`: nothing without a resolved
repository; otherwise the stored payload is fetched and, when it is not
already text (`not isinstance(data, str | bytes)`), re-serialized via the
repository resolved again from the URL, then wrapped as a `CachedResponse`
data payload. -/
def CachedSession.get_cached_response (c : SQLiteCache) (now : Int) (req : HttpRequest)
    (repository : Option (String × SQLiteTable)) : Except SessionError (Option (Option String)) :=
  match repository with
  | none => .ok none
  | some (_, t) =>
    match t.get_response now (.http req) with
    | .error e => .error (.db e)
    | .ok none => .ok none
    | .ok (some data) =>
      match data with
      | .str s => .ok (some (some s))
      | d =>
        match c.get_repository_from_url req.url with
        | none => .error .attrNone
        | some (_, t2) => .ok (some ((t2.serialize (.json d)).map (fun txt => txt.raw)))

/-- `CachedSession.request`: build the URL (`InvalidURL` when malformed),
resolve the repository, short-circuit on a cache hit, otherwise send exactly
one network request; after the consuming block runs (`body` — the code after
the `yield` executes only when the block completed without raising), persist
the response unless it came from cache or `persist` is unset.  `net` gives
the status and body text the network returns for a request. -/
def CachedSession.request (c : SQLiteCache) (net : HttpRequest → Nat × PyText) (now : Int)
    (method : String) (url : Option Url) (persist : Bool)
    (body : SessionResponse → Bool) : Except SessionError RequestOutcome :=
  match url with
  | none => .error .invalidURL
  | some u =>
    let req : HttpRequest := ⟨method, u⟩
    let repository := c.get_repository_from_requests req
    match CachedSession.get_cached_response c now req repository with
    | .error e => .error e
    | .ok (some data) =>
      .ok ⟨.cached data req, 0, c⟩
    | .ok none =>
      let netOut := net req
      let resp : NetResponse := ⟨netOut.1, req, netOut.2⟩
      if body (.fresh resp) then
        if persist then
          match repository with
          | none => .error .attrNone
          | some (name, t) =>
            match t.save_response now resp with
            | .error e => .error (.db e)
            | .ok t2 => .ok ⟨.fresh resp, 1, c.set_repository name t2⟩
        else .ok ⟨.fresh resp, 1, c⟩
      else .ok ⟨.fresh resp, 1, c⟩

/-- Modelled from the spec: the Request Handler (`syncify.api`, absent from
the sources) drives the session and raises a typed API error from
`handle_unexpected_response` on a non-2xx status, which aborts the consuming
block of `CachedSession.request` before its persist step; a 2xx response is
consumed normally. -/
def handlerBodyCompletes : SessionResponse → Bool
  | .cached _ _ => true
  | .fresh r => decide (200 ≤ r.status) && decide (r.status < 300)

/-- A value stored under a token key: tokens are flat string-to-value maps
of strings and numbers. -/
inductive TVal where
  | s (v : String)
  | n (v : Int)
deriving DecidableEq

/-- A bearer token: a flat mapping of string keys to values. -/
abbrev Token := List (String × TVal)

/-- Dictionary lookup on a token. -/
def Token.lookup (t : Token) (k : String) : Option TVal :=
  (t.find? (fun p => p.1 = k)).map (fun p => p.2)

/-- `key in token`. -/
def Token.hasKey (t : Token) (k : String) : Bool :=
  (Token.lookup t k).isSome

/-- Dictionary update on a token (`token[key] = value`). -/
def Token.insert (t : Token) (k : String) (v : TVal) : Token :=
  t.filter (fun p => decide (p.1 ≠ k)) ++ [(k, v)]

/-- The arguments of one token-granting flow (`auth_args`, `user_args`,
`refresh_args`): for the control flow only the presence of a pre-set
authorization `code` in the request data matters
(`not requests_args["data"].get("code")`). -/
structure ReqArgs where
  codePresent : Bool

/-- The configuration of an `APIAuthoriser`: the three request-argument sets,
the liveness probe (`test_args` with `test_condition`, composed into one
predicate over the current token, `none` when not configured), the expiry
margin, the token sink path and the header formatting fields
(`token_key_path` defaults to `["access_token"]`). -/
structure AuthConfig where
  auth_args : ReqArgs
  user_args : Option ReqArgs
  refresh_args : Option ReqArgs
  test_probe : Option (Token → Bool)
  test_expiry : Int
  token_file_path : Option String
  token_key_path : List String
  header_key : String
  header_lead : String
  header_extra : List (String × String)

/-- The environment one `auth` run observes: the clock, the filesystem at the
token sink paths, and the raw JSON bodies the three token-granting posts
return. -/
structure AuthEnv where
  now : Int
  fs : List (String × Token)
  authResponse : Token
  refreshResponse : Token
  authResponse2 : Token

/-- An event of an `auth` run, for stating which flows were invoked:
a token load, a full authorisation via `auth_args` (recording whether the
interactive `_auth_user` browser flow was driven), or a refresh via
`refresh_args`. -/
inductive AuthEvent where
  | load
  | fullAuth (interactive : Bool)
  | refreshAuth
deriving DecidableEq

/-- A failure `auth` raises: `connectionError` when the token is still
invalid after refresh and re-authorisation, `typeError` from `save_token`
or the `headers` property. -/
inductive AuthFailure where
  | connectionError
  | typeError
deriving DecidableEq

/-- `APIAuthoriser.request_token`: drives the interactive `_auth_user` flow
when requested, configured and no code is pre-set; stamps the response with
`granted_at = now`, derives `expires_at = granted_at + expires_in` when the
response declares a numeric lifetime, and carries a prior refresh credential
forward when the response omits one.  Returns the new token and whether the
interactive flow ran. -/
def APIAuthoriser.request_token (cfg : AuthConfig) (now : Int) (held : Option Token)
    (user : Bool) (args : ReqArgs) (raw : Token) : Token × Bool :=
  let interactive := user && cfg.user_args.isSome && !args.codePresent
  let resp := raw.insert "granted_at" (.n now)
  let resp :=
    match resp.lookup "expires_in" with
    | some (.n life) => resp.insert "expires_at" (.n (now + life))
    | _ => resp
  let resp :=
    if resp.hasKey "refresh_token" then resp
    else
      match held with
      | none => resp
      | some tok =>
        match tok.lookup "refresh_token" with
        | none => resp
        | some rt => resp.insert "refresh_token" rt
  (resp, interactive)

/-- `APIAuthoriser.test`: false immediately when the token carries an
`error` key; otherwise the configured liveness probe must accept and, when
the token has an `expires_at` and a positive `test_expiry` margin is
configured, the token must outlive `now + test_expiry`. -/
def APIAuthoriser.test (cfg : AuthConfig) (now : Int) (tok : Token) : Bool :=
  if tok.hasKey "error" then false
  else
    let valid_response :=
      match cfg.test_probe with
      | none => true
      | some probe => probe tok
    let not_expired :=
      if tok.hasKey "expires_at" && decide (cfg.test_expiry > 0) then
        match tok.lookup "expires_at" with
        | some (.n e) => decide (now + cfg.test_expiry < e)
        | _ => false
      else true
    valid_response && not_expired

/-- `APIAuthoriser.load_token`: replace the held token with the document at
the sink path when a path is configured and the file exists; otherwise keep
the held token. -/
def APIAuthoriser.load_token (cfg : AuthConfig) (fs : List (String × Token))
    (held : Option Token) : Option Token :=
  match cfg.token_file_path with
  | none => held
  | some p =>
    match (fs.find? (fun f => f.1 = p)).map (fun f => f.2) with
    | none => held
    | some doc => some doc

/-- `APIAuthoriser.save_token`: writes the held token as a flat key-value
document to the sink path.  The path is opened unguarded, so a missing path
raises a `TypeError` (`open(None, "w")`) instead of skipping the write. -/
def APIAuthoriser.save_token (cfg : AuthConfig) (fs : List (String × Token))
    (held : Token) : Except AuthFailure (List (String × Token)) :=
  match cfg.token_file_path with
  | none => .error .typeError
  | some p => .ok (fs.filter (fun f => decide (f.1 ≠ p)) ++ [(p, held)])

/-- The cursor of the `headers` key-path walk over a flat token: at the
token itself, at a leaf value, or fallen off (`.get(key, {})`). -/
inductive TokenCursor where
  | map (t : Token)
  | val (v : TVal)
  | missing

/-- One step of the `headers` key-path walk. -/
def TokenCursor.step (c : TokenCursor) (k : String) : TokenCursor :=
  match c with
  | .map t =>
    match t.lookup k with
    | some v => .val v
    | none => .missing
  | .val _ => .missing
  | .missing => .missing

/-- `APIAuthoriser.headers`: walk `token_key_path` into the token; unless the
walk ends at a string value a `TypeError` is raised; otherwise the value is
formatted under `header_key` with the configured value lead text and the
extra headers appended. -/
def APIAuthoriser.headersOf (cfg : AuthConfig) (tok : Token) :
    Except AuthFailure (List (String × String)) :=
  match cfg.token_key_path.foldl TokenCursor.step (.map tok) with
  | .val (.s s) => .ok ((cfg.header_key, cfg.header_lead ++ s) :: cfg.header_extra)
  | _ => .error .typeError

/-- `APIAuthoriser.auth`: load the stored token unless one is held (or a
reload or a brand-new token is forced); generate a new token when none is
held or forced; test; on failure refresh when a refresh credential and a
refresh flow exist, and re-test; on continued failure run the full
authorisation flow once more and re-test, raising `ConnectionError` when the
token is still invalid; on success save the token and return the formatted
headers.  Returns the outcome together with the trace of flows invoked. -/
def APIAuthoriser.auth (cfg : AuthConfig) (env : AuthEnv) (held : Option Token)
    (force_load : Bool := false) (force_new : Bool := false) :
    Except AuthFailure (Token × List (String × String) × List (String × Token)) × List AuthEvent :=
  let loadStep : Option Token × List AuthEvent :=
    if (held.isNone || force_load) && !force_new then
      (APIAuthoriser.load_token cfg env.fs held, [.load])
    else (held, [])
  let genStep : Token × List AuthEvent :=
    match loadStep.1 with
    | none =>
      let g := APIAuthoriser.request_token cfg env.now none true cfg.auth_args env.authResponse
      (g.1, loadStep.2 ++ [.fullAuth g.2])
    | some tok =>
      if force_new then
        let g := APIAuthoriser.request_token cfg env.now (some tok) true cfg.auth_args env.authResponse
        (g.1, loadStep.2 ++ [.fullAuth g.2])
      else (tok, loadStep.2)
  let tok1 := genStep.1
  let valid1 := APIAuthoriser.test cfg env.now tok1
  let refreshStep : Token × Bool × List AuthEvent :=
    match (if !valid1 && tok1.hasKey "refresh_token" then cfg.refresh_args else none) with
    | some rargs =>
      let g := APIAuthoriser.request_token cfg env.now (some tok1) false rargs env.refreshResponse
      (g.1, APIAuthoriser.test cfg env.now g.1, genStep.2 ++ [.refreshAuth])
    | none => (tok1, valid1, genStep.2)
  let finishStep : Except AuthFailure Token × List AuthEvent :=
    if refreshStep.2.1 then (.ok refreshStep.1, refreshStep.2.2)
    else
      let g := APIAuthoriser.request_token cfg env.now (some refreshStep.1) true cfg.auth_args env.authResponse2
      let evs := refreshStep.2.2 ++ [.fullAuth g.2]
      if APIAuthoriser.test cfg env.now g.1 then (.ok g.1, evs)
      else (.error .connectionError, evs)
  match finishStep.1 with
  | .error e => (.error e, finishStep.2)
  | .ok tok =>
    match APIAuthoriser.save_token cfg env.fs tok with
    | .error e => (.error e, finishStep.2)
    | .ok fs2 =>
      match APIAuthoriser.headersOf cfg tok with
      | .error e => (.error e, finishStep.2)
      | .ok hs => (.ok (tok, hs, fs2), finishStep.2)

/-- A response as the Request Handler classifies it: the status and the
parsed seconds-to-wait of a `retry-after` rate-limit hint header, when
present. -/
structure HandlerResponse where
  status : Nat
  retry_after : Option ℚ
deriving DecidableEq

/-- The backoff schedule of the Request Handler: starting interval, the
factor applied per attempt, and the maximum attempt count. -/
structure BackoffConfig where
  backoff_start : ℚ
  backoff_factor : ℚ
  backoff_count : Nat

/-- Modelled from the spec: `_handle_wait_time` of the Request Handler
(`syncify.api`, only its tests are in the sources) — a response without the
rate-limit hint header signals no wait and no retry; a parsed wait above the
configured ceiling raises a typed API error; otherwise sleep for the hint
and signal retry. -/
def handle_wait_time (ceiling : ℚ) (r : HandlerResponse) : Except String (Bool × ℚ) :=
  match r.retry_after with
  | none => .ok (false, 0)
  | some w =>
    if ceiling < w then .error "APIError: rate limit wait time exceeds the maximum timeout"
    else .ok (true, w)

/-- Modelled from the spec: the rate-limit handling loop of the Request
Handler — send, consult `handle_wait_time`, and on a retry signal sleep the
hinted seconds and send again.  `ep i` is the response to the `i`-th send;
both outcomes carry the number of sends made and the sleeps performed. -/
def rateLimitLoop (ceiling : ℚ) (ep : Nat → HandlerResponse) :
    Nat → Nat → List ℚ → Except (String × Nat × List ℚ) (HandlerResponse × Nat × List ℚ)
  | 0, calls, sleeps => .error ("no attempts left", calls, sleeps)
  | fuel + 1, calls, sleeps =>
    let r := ep calls
    match handle_wait_time ceiling r with
    | .error e => .error (e, calls + 1, sleeps)
    | .ok (false, _) => .ok (r, calls + 1, sleeps)
    | .ok (true, w) => rateLimitLoop ceiling ep fuel (calls + 1) (sleeps ++ [w])

/-- Modelled from the spec: the backoff loop of the Request Handler — on a
transient status, sleep the current interval, scale it by the configured
factor and retry, up to `backoff_count` attempts; exhausting the attempts
raises a fatal API error, and a successful attempt returns its response with
no earlier failure surfaced.  `ep i` is the response to the `i`-th attempt;
both outcomes carry the attempts made and the sleeps performed. -/
def backoffLoop (cfg : BackoffConfig) (transient : Nat → Bool) (ep : Nat → HandlerResponse) :
    Nat → Nat → ℚ → List ℚ → Except (String × Nat × List ℚ) (HandlerResponse × Nat × List ℚ)
  | 0, made, _, sleeps => .error ("APIError: max backoff attempts exceeded", made, sleeps)
  | fuel + 1, made, interval, sleeps =>
    let r := ep made
    if transient r.status then
      backoffLoop cfg transient ep fuel (made + 1) (interval * cfg.backoff_factor) (sleeps ++ [interval])
    else .ok (r, made + 1, sleeps)

/-- Modelled from the spec: one logical Request Handler call under the
backoff policy, starting from the configured schedule. -/
def requestWithBackoff (cfg : BackoffConfig) (transient : Nat → Bool)
    (ep : Nat → HandlerResponse) : Except (String × Nat × List ℚ) (HandlerResponse × Nat × List ℚ) :=
  backoffLoop cfg transient ep cfg.backoff_count 0 cfg.backoff_start []

theorem get_key_http_length {s : RequestSettings} {r : HttpRequest} {k : CacheKey}
    (h : s.get_key_from_request (.http r) = some k) : k.length = s.numKeyCols ∧ k ≠ [] := by
  unfold RequestSettings.get_key_from_request at h
  cases hid : s.get_id r.url.path with
  | none => simp [hid] at h
  | some id_ =>
    simp only [hid] at h
    by_cases he : id_ = ""
    · simp [he] at h
    · simp only [he, if_false] at h
      cases hp : s.pagination with
      | none =>
        simp only [hp] at h
        cases h
        simp [RequestSettings.numKeyCols, hp]
      | some p =>
        simp only [hp] at h
        cases h
        simp [RequestSettings.numKeyCols, hp]

theorem find?_filter_append (l : List Row) (row : Row) (k : CacheKey) (p : Row → Bool)
    (hkey : ∀ r, p r = true → r.key = k) :
    ((l.filter fun r => decide (r.key ≠ k)) ++ [row]).find? p =
      if p row then some row else none := by
  rw [List.find?_append]
  have h1 : (l.filter fun r => decide (r.key ≠ k)).find? p = none := by
    rw [List.find?_eq_none]
    intro x hx hpx
    have hxk := hkey x hpx
    have hne := List.mem_filter.mp hx
    simp only [decide_eq_true_eq] at hne
    exact hne.2 hxk
  rw [h1]
  cases hp : p row <;> simp [List.find?, hp]

theorem any_filter_append (l : List Row) (row : Row) (k : CacheKey) (q : Row → Bool)
    (hkey : ∀ r, q r = true → r.key = k) :
    ((l.filter fun r => decide (r.key ≠ k)) ++ [row]).any q = q row := by
  rw [List.any_append]
  have h1 : (l.filter fun r => decide (r.key ≠ k)).any q = false := by
    rw [List.any_eq_false]
    intro x hx hqx
    have hne := List.mem_filter.mp hx
    simp only [decide_eq_true_eq] at hne
    exact hne.2 (hkey x hqx)
  rw [h1]
  simp [List.any]

/-- C1: for every repository-derivable cache key and JSON-serializable
payload, after `set(k, v)` a `get` performed while the stored `expires_at`
lies in the future returns a value deep-equal to `v`; once `expires_at` is
not in the future, `get` returns absent and `contains` is false, while the
expired row is not eagerly deleted: it remains stored until swept or
overwritten. -/
theorem C1_set_get_roundtrip_ttl (t : SQLiteTable) (r : HttpRequest) (k : CacheKey) (v : Json)
    (now t1 : Int) (hk : t.settings.get_key_from_request (.http r) = some k) :
    ∃ t2, t.set_item_from_key_value_pair now k (.json v) = .ok t2 ∧
      (t1 < now + t.ttl → t2.get_response t1 (.http r) = .ok (some v)) ∧
      (now + t.ttl ≤ t1 →
        t2.get_response t1 (.http r) = .ok none ∧
        t2.contains t1 (.http r) = .ok false ∧
        ∃ row ∈ t2.rows, row.key = k) := by
  obtain ⟨hlen, hne⟩ := get_key_http_length hk
  set newRow : Row := ⟨k, t.settings.get_name (.json v), now, now + t.ttl,
    t.serialize (.json v)⟩ with hrowdef
  set t2 : SQLiteTable :=
    { t with rows := t.rows.filter (fun r => decide (r.key ≠ k)) ++ [newRow] } with ht2
  have hset : t.set_item_from_key_value_pair now k (.json v) = .ok t2 := by
    unfold SQLiteTable.set_item_from_key_value_pair
    rw [if_neg (by simp [hlen])]
  refine ⟨t2, hset, ?_, ?_⟩
  · intro hlive
    unfold SQLiteTable.get_response
    simp only [ht2, hk, hne, hlen]
    rw [if_neg (by simp [hne]), if_neg (by simp [hlen])]
    rw [find?_filter_append _ _ _ _ (fun r hr => by
      simp only [Bool.and_eq_true, decide_eq_true_eq] at hr
      exact hr.2)]
    have hp : (fun r : Row => r.data.isSome && decide (t1 < r.expires_at) && decide (r.key = k))
        newRow = true := by
      simp [hrowdef, SQLiteTable.serialize, hlive]
    rw [if_pos hp]
    simp [hrowdef, SQLiteTable.serialize, SQLiteTable.deserialize, Json.dumps]
  · intro hexp
    have hnotlive : ¬ (t1 < now + t.ttl) := not_lt.mpr hexp
    refine ⟨?_, ?_, ?_⟩
    · unfold SQLiteTable.get_response
      simp only [ht2, hk]
      rw [if_neg (by simp [hne]), if_neg (by simp [hlen])]
      rw [find?_filter_append _ _ _ _ (fun r hr => by
        simp only [Bool.and_eq_true, decide_eq_true_eq] at hr
        exact hr.2)]
      rw [if_neg (by simp [hrowdef, hnotlive])]
    · unfold SQLiteTable.contains
      simp only [ht2, hk]
      rw [if_neg (by simp [hlen])]
      rw [any_filter_append _ _ _ _ (fun r hr => by
        simp only [Bool.and_eq_true, decide_eq_true_eq] at hr
        exact hr.2)]
      simp [hrowdef, hnotlive]
    · exact ⟨newRow, by simp [ht2], rfl⟩

/-- A simple non-paginated endpoint family used to instantiate theorems:
the resource id is the first URL path segment. -/
def settingsW : RequestSettings :=
  { name := "tracks", get_id := fun path => path.head?, get_name := fun _ => none,
    pagination := none }

/-- An empty repository for the `settingsW` family with a ttl of 10. -/
def tableW : SQLiteTable := ⟨settingsW, 10, []⟩

/-- A request for resource `abc` of the `settingsW` family. -/
def reqW : HttpRequest := ⟨"GET", ⟨["abc"], []⟩⟩

/-- A sample JSON payload. -/
def valW : Json := .obj [("x", .num 1)]

/-- Witness for C1 at a concrete repository, request and payload. -/
theorem C1_witness :
    ∃ t2, tableW.set_item_from_key_value_pair 0 [.s "GET", .s "abc"] (.json valW) = .ok t2 ∧
      ((5 : Int) < 0 + tableW.ttl → t2.get_response 5 (.http reqW) = .ok (some valW)) ∧
      ((0 : Int) + tableW.ttl ≤ 5 →
        t2.get_response 5 (.http reqW) = .ok none ∧
        t2.contains 5 (.http reqW) = .ok false ∧
        ∃ row ∈ t2.rows, row.key = [.s "GET", .s "abc"]) :=
  C1_set_get_roundtrip_ttl tableW reqW [.s "GET", .s "abc"] valW 0 5 (by rfl)

theorem get_key_http_paginated_inv {s : RequestSettings} {p : PaginationRule} {r : HttpRequest}
    {k : CacheKey} (hp : s.pagination = some p)
    (h : s.get_key_from_request (.http r) = some k) :
    ∃ i, s.get_id r.url.path = some i ∧ i ≠ "" ∧
      k = [.s r.method, .s i, .i (p.get_offset r.url.query), .i (p.get_limit r.url.query)] := by
  unfold RequestSettings.get_key_from_request at h
  cases hid : s.get_id r.url.path with
  | none => simp [hid] at h
  | some id_ =>
    simp only [hid] at h
    by_cases he : id_ = ""
    · simp [he] at h
    · simp only [he, if_false, hp] at h
      cases h
      exact ⟨id_, rfl, he, rfl⟩

/-- C4: the derived cache key is `(method, resource_id)` for a non-paginated
family and `(method, resource_id, offset, page_size)` for a paginated one,
and is absent when the URL does not match the id-extraction rule; two
non-paginated descriptors with identical method and path derive the same key
whatever their query parameters, and two paginated descriptors whose
extracted offset or page size differ derive different keys. -/
theorem C4_key_derivation (s : RequestSettings) :
    (∀ (m : String) (u : Url) (i : String), s.pagination = none →
      s.get_id u.path = some i → i ≠ "" →
      s.get_key_from_request (.http ⟨m, u⟩) = some [.s m, .s i]) ∧
    (∀ (m : String) (u : Url) (i : String) (p : PaginationRule), s.pagination = some p →
      s.get_id u.path = some i → i ≠ "" →
      s.get_key_from_request (.http ⟨m, u⟩) =
        some [.s m, .s i, .i (p.get_offset u.query), .i (p.get_limit u.query)]) ∧
    (∀ r : HttpRequest, s.get_id r.url.path = none →
      s.get_key_from_request (.http r) = none) ∧
    (∀ r1 r2 : HttpRequest, s.pagination = none → r1.method = r2.method →
      r1.url.path = r2.url.path →
      s.get_key_from_request (.http r1) = s.get_key_from_request (.http r2)) ∧
    (∀ (r1 r2 : HttpRequest) (p : PaginationRule) (k1 k2 : CacheKey), s.pagination = some p →
      s.get_key_from_request (.http r1) = some k1 →
      s.get_key_from_request (.http r2) = some k2 →
      (p.get_offset r1.url.query ≠ p.get_offset r2.url.query ∨
        p.get_limit r1.url.query ≠ p.get_limit r2.url.query) →
      k1 ≠ k2) := by
  refine ⟨?_, ?_, ?_, ?_, ?_⟩
  · intro m u i hp hid hne
    unfold RequestSettings.get_key_from_request
    simp [hid, hne, hp]
  · intro m u i p hp hid hne
    unfold RequestSettings.get_key_from_request
    simp [hid, hne, hp]
  · intro r hid
    unfold RequestSettings.get_key_from_request
    simp [hid]
  · intro r1 r2 hp hm hpath
    simp only [RequestSettings.get_key_from_request, hp, hm, hpath]
  · intro r1 r2 p k1 k2 hp h1 h2 hdiff
    obtain ⟨i1, _, _, hk1⟩ := get_key_http_paginated_inv hp h1
    obtain ⟨i2, _, _, hk2⟩ := get_key_http_paginated_inv hp h2
    subst hk1
    subst hk2
    intro heq
    simp only [List.cons.injEq, KeyPart.i.injEq, KeyPart.s.injEq, and_true] at heq
    obtain ⟨-, -, hoff, hlim⟩ := heq
    rcases hdiff with hd | hd
    · exact hd hoff
    · exact hd hlim

/-- Decimal digits of a query parameter value, as a number. -/
def digitsToInt (s : String) : Int :=
  (s.data.foldl (fun n c => n * 10 + (c.toNat - 48)) 0 : Nat)

/-- A paginated endpoint family used to instantiate theorems: the resource id
is the first URL path segment, offset and limit are read from the
correspondingly named query parameters. -/
def settingsPagW : RequestSettings :=
  { name := "playlists", get_id := fun path => path.head?, get_name := fun _ => none,
    pagination := some
      { get_offset := fun q =>
          match q.find? (fun e => e.1 = "offset") with
          | some e => digitsToInt e.2
          | none => 0,
        get_limit := fun q =>
          match q.find? (fun e => e.1 = "limit") with
          | some e => digitsToInt e.2
          | none => 50 } }

/-- Witness for C4: key shapes, absence, query-irrelevance and page-window
sensitivity at concrete descriptors. -/
theorem C4_witness :
    settingsW.get_key_from_request (.http ⟨"GET", ⟨["abc"], [("q", "1")]⟩⟩) =
      some [.s "GET", .s "abc"] ∧
    settingsPagW.get_key_from_request (.http ⟨"GET", ⟨["abc"], [("offset", "20")]⟩⟩) =
      some [.s "GET", .s "abc", .i 20, .i 50] ∧
    settingsW.get_key_from_request (.http ⟨"GET", ⟨[], []⟩⟩) = none ∧
    settingsW.get_key_from_request (.http ⟨"GET", ⟨["abc"], [("q", "1")]⟩⟩) =
      settingsW.get_key_from_request (.http ⟨"GET", ⟨["abc"], [("q", "2")]⟩⟩) ∧
    [KeyPart.s "GET", .s "abc", .i 0, .i 50] ≠ [KeyPart.s "GET", .s "abc", .i 20, .i 50] := by
  obtain ⟨h1, h2, h3, h4, h5⟩ := C4_key_derivation settingsW
  obtain ⟨g1, g2, g3, g4, g5⟩ := C4_key_derivation settingsPagW
  refine ⟨?_, ?_, ?_, ?_, ?_⟩
  · exact h1 "GET" ⟨["abc"], [("q", "1")]⟩ "abc" rfl rfl (by decide)
  · have := g2 "GET" ⟨["abc"], [("offset", "20")]⟩ "abc" _ rfl rfl (by decide)
    simpa [settingsPagW, digitsToInt] using this
  · exact h3 ⟨"GET", ⟨[], []⟩⟩ rfl
  · exact h4 ⟨"GET", ⟨["abc"], [("q", "1")]⟩⟩ ⟨"GET", ⟨["abc"], [("q", "2")]⟩⟩ rfl rfl rfl
  · exact g5 ⟨"GET", ⟨["abc"], [("offset", "0")]⟩⟩ ⟨"GET", ⟨["abc"], [("offset", "20")]⟩⟩ _
      [.s "GET", .s "abc", .i 0, .i 50] [.s "GET", .s "abc", .i 20, .i 50] rfl
      (by simp [settingsPagW, RequestSettings.get_key_from_request, digitsToInt])
      (by simp [settingsPagW, RequestSettings.get_key_from_request, digitsToInt])
      (by left; simp [settingsPagW, digitsToInt])

/-- C6: creating a second repository under a family name already registered
in a cache raises `CacheError` before any mutation, so the cache — and in
particular the existing registration for that name — is left unchanged. -/
theorem C6_no_duplicate_repositories (c : SQLiteCache) (s : RequestSettings)
    (h : c.member s.name = true) :
    (c.create_repository s).1 =
      .error (.cacheError ("Repository already exists: " ++ s.name)) ∧
    (c.create_repository s).2 = c := by
  unfold SQLiteCache.create_repository
  simp [h]

/-- A cache holding one repository, registered under the `settingsW` family
name. -/
def cacheW : SQLiteCache :=
  ⟨"cache.sqlite", 10, [("tracks", tableW)], some (fun _ => some "tracks")⟩

/-- Witness for C6: re-creating the `tracks` repository of `cacheW` errors
and leaves the cache untouched. -/
theorem C6_witness :
    (cacheW.create_repository settingsW).1 =
      .error (.cacheError ("Repository already exists: " ++ settingsW.name)) ∧
    (cacheW.create_repository settingsW).2 = cacheW :=
  C6_no_duplicate_repositories cacheW settingsW (by rfl)

/-- An endpoint family whose id-extraction rule never matches, so every
request derives an absent key. -/
def settingsNoneW : RequestSettings :=
  { name := "unmatched", get_id := fun _ => none, get_name := fun _ => none,
    pagination := none }

/-- An empty repository for the never-matching family. -/
def tableNoneW : SQLiteTable := ⟨settingsNoneW, 10, []⟩

/-- C10 as stated is false: on a request whose URL does not match the
id-extraction rule, `contains` raises instead of completing — the derived
`None` key is spliced unguarded into the query parameters. -/
theorem C10_counterexample :
    tableNoneW.contains 0 (.http reqW) = .error .typeError ∧
    tableNoneW.delete_response (.http reqW) = .error .typeError :=
  ⟨rfl, rfl⟩

/-- C10 amended: when key derivation fails, `get_response` alone guards the
absent key and returns absent without error; `contains` and
`delete_response` bind the absent key unguarded and raise, so they are total
only over requests whose key derivation succeeds. -/
theorem C10_get_total_contains_delete_raise (t : SQLiteTable) (r : HttpRequest) (now : Int)
    (h : t.settings.get_key_from_request (.http r) = none) :
    t.get_response now (.http r) = .ok none ∧
    t.contains now (.http r) = .error .typeError ∧
    t.delete_response (.http r) = .error .typeError := by
  unfold SQLiteTable.get_response SQLiteTable.contains SQLiteTable.delete_response
  simp [h]

/-- Witness for the amended C10 at the never-matching repository. -/
theorem C10_witness :
    tableNoneW.get_response 0 (.http reqW) = .ok none ∧
    tableNoneW.contains 0 (.http reqW) = .error .typeError ∧
    tableNoneW.delete_response (.http reqW) = .error .typeError :=
  C10_get_total_contains_delete_raise tableNoneW reqW 0 (by rfl)

/-- The data payload a `CachedResponse` wraps for a stored document: a stored
string is used directly, anything else is re-serialized. -/
def cachedPayload (t : SQLiteTable) (v : Json) : Option String :=
  match v with
  | .str s => some s
  | d => (t.serialize (.json d)).map (fun txt => txt.raw)

/-- C2: when the resolved repository holds a non-expired entry under the
derived key, `CachedSession.request` performs zero network calls, leaves the
cache untouched and returns the stored payload wrapped as a from-cache
response. -/
theorem C2_cache_short_circuit (c : SQLiteCache) (net : HttpRequest → Nat × PyText)
    (now : Int) (method : String) (u : Url) (name : String) (t : SQLiteTable) (v : Json)
    (persist : Bool) (body : SessionResponse → Bool)
    (hrepo : c.get_repository_from_requests ⟨method, u⟩ = some (name, t))
    (hget : t.get_response now (.http ⟨method, u⟩) = .ok (some v)) :
    CachedSession.request c net now method (some u) persist body =
      .ok ⟨.cached (cachedPayload t v) ⟨method, u⟩, 0, c⟩ := by
  have hurl : c.get_repository_from_url u = some (name, t) := hrepo
  simp only [CachedSession.request, CachedSession.get_cached_response, hrepo, hget]
  cases v with
  | str s => rfl
  | null => simp [hurl, cachedPayload]
  | bool b => simp [hurl, cachedPayload]
  | num n => simp [hurl, cachedPayload]
  | arr xs => simp [hurl, cachedPayload]
  | obj fs => simp [hurl, cachedPayload]

/-- A repository of the `settingsW` family holding one fresh entry for
resource `abc`. -/
def tableHitW : SQLiteTable :=
  ⟨settingsW, 10, [⟨[.s "GET", .s "abc"], none, 0, 10, some (Json.dumps valW)⟩]⟩

/-- A cache resolving every URL to the single pre-populated repository. -/
def cacheHitW : SQLiteCache :=
  ⟨"cache.sqlite", 10, [("tracks", tableHitW)], some (fun _ => some "tracks")⟩

/-- A network function that would answer 200 with an empty JSON object. -/
def netW : HttpRequest → Nat × PyText := fun _ => (200, Json.dumps (.obj []))

/-- Witness for C2: a request against the pre-populated cache is served with
zero network calls. -/
theorem C2_witness :
    CachedSession.request cacheHitW netW 5 "GET" (some ⟨["abc"], []⟩) true (fun _ => true) =
      .ok ⟨.cached (cachedPayload tableHitW valW) ⟨"GET", ⟨["abc"], []⟩⟩, 0, cacheHitW⟩ :=
  C2_cache_short_circuit cacheHitW netW 5 "GET" ⟨["abc"], []⟩ "tracks" tableHitW valW
    true (fun _ => true) (by rfl) (by rfl)

/-- C3: with `persist` true, a response obtained from the network (a cache
miss) whose consuming block completes is written into the resolved
repository keyed by the original request; error responses such as a 404 or
500 abort the consuming block of the Request Handler before the persist step and
are not cached; with `persist` false, or when the response came from cache,
no cache write occurs. -/
theorem C3_persist_fresh_only (c : SQLiteCache) (net : HttpRequest → Nat × PyText)
    (now : Int) (method : String) (u : Url) (name : String) (t : SQLiteTable) :
    (∀ (body : SessionResponse → Bool) (t2 : SQLiteTable),
      c.get_repository_from_requests ⟨method, u⟩ = some (name, t) →
      CachedSession.get_cached_response c now ⟨method, u⟩
        (c.get_repository_from_requests ⟨method, u⟩) = .ok none →
      body (.fresh ⟨(net ⟨method, u⟩).1, ⟨method, u⟩, (net ⟨method, u⟩).2⟩) = true →
      t.save_response now ⟨(net ⟨method, u⟩).1, ⟨method, u⟩, (net ⟨method, u⟩).2⟩ = .ok t2 →
      CachedSession.request c net now method (some u) true body =
        .ok ⟨.fresh ⟨(net ⟨method, u⟩).1, ⟨method, u⟩, (net ⟨method, u⟩).2⟩, 1,
          c.set_repository name t2⟩) ∧
    (∀ persist : Bool,
      CachedSession.get_cached_response c now ⟨method, u⟩
        (c.get_repository_from_requests ⟨method, u⟩) = .ok none →
      ¬ (200 ≤ (net ⟨method, u⟩).1 ∧ (net ⟨method, u⟩).1 < 300) →
      CachedSession.request c net now method (some u) persist handlerBodyCompletes =
        .ok ⟨.fresh ⟨(net ⟨method, u⟩).1, ⟨method, u⟩, (net ⟨method, u⟩).2⟩, 1, c⟩) ∧
    (∀ body : SessionResponse → Bool,
      CachedSession.get_cached_response c now ⟨method, u⟩
        (c.get_repository_from_requests ⟨method, u⟩) = .ok none →
      CachedSession.request c net now method (some u) false body =
        .ok ⟨.fresh ⟨(net ⟨method, u⟩).1, ⟨method, u⟩, (net ⟨method, u⟩).2⟩, 1, c⟩) ∧
    (∀ (body : SessionResponse → Bool) (persist : Bool) (data : Option String),
      CachedSession.get_cached_response c now ⟨method, u⟩
        (c.get_repository_from_requests ⟨method, u⟩) = .ok (some data) →
      CachedSession.request c net now method (some u) persist body =
        .ok ⟨.cached data ⟨method, u⟩, 0, c⟩) := by
  refine ⟨?_, ?_, ?_, ?_⟩
  · intro body t2 hrepo hmiss hbody hsave
    rw [hrepo] at hmiss
    simp only [CachedSession.request, hrepo, hmiss, hbody, hsave, if_true]
  · intro persist hmiss hbad
    have hb : handlerBodyCompletes
        (.fresh ⟨(net ⟨method, u⟩).1, ⟨method, u⟩, (net ⟨method, u⟩).2⟩) = false := by
      unfold handlerBodyCompletes
      rcases Nat.lt_or_ge (net ⟨method, u⟩).1 200 with hlt | hge
      · simp [Nat.not_le.mpr hlt]
      · have h300 : ¬ (net ⟨method, u⟩).1 < 300 := fun hlt2 => hbad ⟨hge, hlt2⟩
        simp [h300]
    simp only [CachedSession.request, hmiss, hb, Bool.false_eq_true, if_false]
  · intro body hmiss
    cases hbody : body (.fresh ⟨(net ⟨method, u⟩).1, ⟨method, u⟩, (net ⟨method, u⟩).2⟩) <;>
      simp [CachedSession.request, hmiss, hbody]
  · intro body persist data hhit
    simp only [CachedSession.request, hhit]

/-- A network function that always answers 404 with an error body. -/
def net404W : HttpRequest → Nat × PyText :=
  fun _ => (404, Json.dumps (.obj [("error", .str "not found")]))

/-- Witness for C3: against the empty repository of `cacheW`, a 404 obtained
from the network under the consuming block of the Request Handler is not written
back into the cache. -/
theorem C3_witness :
    CachedSession.request cacheW net404W 0 "GET" (some ⟨["abc"], []⟩) true
      handlerBodyCompletes =
      .ok ⟨.fresh ⟨404, ⟨"GET", ⟨["abc"], []⟩⟩, Json.dumps (.obj [("error", .str "not found")])⟩,
        1, cacheW⟩ :=
  (C3_persist_fresh_only cacheW net404W 0 "GET" ⟨["abc"], []⟩ "tracks" tableW).2.1
    true (by rfl) (by decide)

/-- The tail of a successful `auth` run: save the token, format the headers,
keep the event trace. -/
def authFinish (cfg : AuthConfig) (env : AuthEnv) (tok : Token) (evs : List AuthEvent) :
    Except AuthFailure (Token × List (String × String) × List (String × Token)) × List AuthEvent :=
  match APIAuthoriser.save_token cfg env.fs tok with
  | .error e => (.error e, evs)
  | .ok fs2 =>
    match APIAuthoriser.headersOf cfg tok with
    | .error e => (.error e, evs)
    | .ok hs => (.ok (tok, hs, fs2), evs)

theorem authFinish_snd (cfg : AuthConfig) (env : AuthEnv) (tok : Token)
    (evs : List AuthEvent) : (authFinish cfg env tok evs).2 = evs := by
  unfold authFinish
  cases APIAuthoriser.save_token cfg env.fs tok with
  | error e => rfl
  | ok fs2 =>
    cases APIAuthoriser.headersOf cfg tok with
    | error e => rfl
    | ok hs => rfl

theorem auth_refresh_unfold (cfg : AuthConfig) (env : AuthEnv) (tk : Token) (rargs : ReqArgs)
    (hr : cfg.refresh_args = some rargs)
    (hfail : APIAuthoriser.test cfg env.now tk = false)
    (hhas : tk.hasKey "refresh_token" = true) :
    APIAuthoriser.auth cfg env (some tk) =
      (if APIAuthoriser.test cfg env.now
          (APIAuthoriser.request_token cfg env.now (some tk) false rargs
            env.refreshResponse).1 = true then
        authFinish cfg env
          (APIAuthoriser.request_token cfg env.now (some tk) false rargs env.refreshResponse).1
          [.refreshAuth]
      else if APIAuthoriser.test cfg env.now
          (APIAuthoriser.request_token cfg env.now
            (some (APIAuthoriser.request_token cfg env.now (some tk) false rargs
              env.refreshResponse).1) true cfg.auth_args env.authResponse2).1 = true then
        authFinish cfg env
          (APIAuthoriser.request_token cfg env.now
            (some (APIAuthoriser.request_token cfg env.now (some tk) false rargs
              env.refreshResponse).1) true cfg.auth_args env.authResponse2).1
          [.refreshAuth, .fullAuth (APIAuthoriser.request_token cfg env.now
            (some (APIAuthoriser.request_token cfg env.now (some tk) false rargs
              env.refreshResponse).1) true cfg.auth_args env.authResponse2).2]
      else
        (.error .connectionError,
          [.refreshAuth, .fullAuth (APIAuthoriser.request_token cfg env.now
            (some (APIAuthoriser.request_token cfg env.now (some tk) false rargs
              env.refreshResponse).1) true cfg.auth_args env.authResponse2).2])) := by
  cases h1 : APIAuthoriser.test cfg env.now
      (APIAuthoriser.request_token cfg env.now (some tk) false rargs env.refreshResponse).1 with
  | true =>
    simp only [APIAuthoriser.auth, authFinish, Option.isNone_some, Bool.false_or, Bool.or_false,
      Bool.not_false, Bool.and_true, Bool.false_and, Bool.and_false, if_false, hfail, hhas, hr,
      Bool.not_true, Bool.true_and, List.nil_append, List.singleton_append, Bool.false_eq_true,
      ite_false, if_true, ite_true, h1, eq_self_iff_true]
  | false =>
    cases h2 : APIAuthoriser.test cfg env.now
        (APIAuthoriser.request_token cfg env.now
          (some (APIAuthoriser.request_token cfg env.now (some tk) false rargs
            env.refreshResponse).1) true cfg.auth_args env.authResponse2).1 with
    | true =>
      simp only [APIAuthoriser.auth, authFinish, Option.isNone_some, Bool.false_or,
        Bool.or_false, Bool.not_false, Bool.and_true, Bool.false_and, Bool.and_false, if_false,
        hfail, hhas, hr, Bool.not_true, Bool.true_and, List.nil_append, List.singleton_append,
        ite_false, if_true, ite_true, h1, h2, eq_self_iff_true, Bool.false_eq_true]
    | false =>
      simp only [APIAuthoriser.auth, authFinish, Option.isNone_some, Bool.false_or,
        Bool.or_false, Bool.not_false, Bool.and_true, Bool.false_and, Bool.and_false, if_false,
        hfail, hhas, hr, Bool.not_true, Bool.true_and, List.nil_append, List.singleton_append,
        ite_false, if_true, ite_true, h1, h2, eq_self_iff_true, Bool.false_eq_true]

/-- C5: a held token that fails `test` but carries a refresh credential,
with a refresh flow configured, is refreshed and re-validated before any
full re-authorisation; when the refreshed token validates, no full
(interactive) authorisation flow is invoked at all; when the token is still
invalid after refresh and the subsequent full re-authorisation, `auth`
raises the fatal `ConnectionError`. -/
theorem C5_token_refresh_cascade (cfg : AuthConfig) (env : AuthEnv) (tk : Token)
    (rargs : ReqArgs) (hr : cfg.refresh_args = some rargs)
    (hfail : APIAuthoriser.test cfg env.now tk = false)
    (hhas : tk.hasKey "refresh_token" = true) :
    (APIAuthoriser.test cfg env.now
        (APIAuthoriser.request_token cfg env.now (some tk) false rargs env.refreshResponse).1 =
        true →
      (APIAuthoriser.auth cfg env (some tk)).2 = [.refreshAuth]) ∧
    (APIAuthoriser.test cfg env.now
        (APIAuthoriser.request_token cfg env.now (some tk) false rargs env.refreshResponse).1 =
        false →
      (APIAuthoriser.auth cfg env (some tk)).2 =
        [.refreshAuth, .fullAuth (APIAuthoriser.request_token cfg env.now
          (some (APIAuthoriser.request_token cfg env.now (some tk) false rargs
            env.refreshResponse).1) true cfg.auth_args env.authResponse2).2] ∧
      (APIAuthoriser.test cfg env.now
          (APIAuthoriser.request_token cfg env.now
            (some (APIAuthoriser.request_token cfg env.now (some tk) false rargs
              env.refreshResponse).1) true cfg.auth_args env.authResponse2).1 = false →
        (APIAuthoriser.auth cfg env (some tk)).1 = .error .connectionError)) := by
  rw [auth_refresh_unfold cfg env tk rargs hr hfail hhas]
  constructor
  · intro h
    rw [if_pos h]
    exact authFinish_snd cfg env _ _
  · intro h
    rw [if_neg (by simp [h])]
    cases hg1 : APIAuthoriser.test cfg env.now
        (APIAuthoriser.request_token cfg env.now
          (some (APIAuthoriser.request_token cfg env.now (some tk) false rargs
            env.refreshResponse).1) true cfg.auth_args env.authResponse2).1 with
    | true =>
      rw [if_pos rfl]
      exact ⟨authFinish_snd cfg env _ _, fun hbad => Bool.noConfusion hbad⟩
    | false =>
      rw [if_neg (by simp)]
      exact ⟨rfl, fun _ => rfl⟩

/-- An authoriser configuration with a refresh flow, no user flow, no probe
and a token sink path. -/
def cfgAuthW : AuthConfig :=
  { auth_args := ⟨false⟩, user_args := none, refresh_args := some ⟨true⟩,
    test_probe := none, test_expiry := 0, token_file_path := some "token.json",
    token_key_path := ["access_token"], header_key := "Authorization",
    header_lead := "Bearer ", header_extra := [] }

/-- A held token that fails validation but carries a refresh credential. -/
def tokAuthW : Token := [("error", .s "invalid"), ("refresh_token", .s "r1")]

/-- An environment in which the refresh and the fallback full authorisation
both return error tokens. -/
def envAuthW : AuthEnv :=
  { now := 0, fs := [], authResponse := [("error", .s "nope")],
    refreshResponse := [("error", .s "still bad")],
    authResponse2 := [("error", .s "nope")] }

/-- Witness for C5: with the refreshed token still invalid, the trace shows
the refresh before the single full re-authorisation, and the run fails
fatally. -/
theorem C5_witness :
    (APIAuthoriser.auth cfgAuthW envAuthW (some tokAuthW)).2 =
      [.refreshAuth, .fullAuth false] ∧
    (APIAuthoriser.auth cfgAuthW envAuthW (some tokAuthW)).1 = .error .connectionError := by
  have h := C5_token_refresh_cascade cfgAuthW envAuthW tokAuthW ⟨true⟩ (by rfl) (by rfl) (by rfl)
  obtain ⟨h2, h3⟩ := h.2 (by rfl)
  exact ⟨h2, h3 (by rfl)⟩

theorem backoffLoop_all_transient (cfg : BackoffConfig) (transient : Nat → Bool)
    (ep : Nat → HandlerResponse) (h : ∀ i, transient (ep i).status = true) :
    ∀ (fuel made : Nat) (interval : ℚ) (sleeps : List ℚ), ∃ sl,
      backoffLoop cfg transient ep fuel made interval sleeps =
        .error ("APIError: max backoff attempts exceeded", made + fuel, sl) := by
  intro fuel
  induction fuel with
  | zero =>
    intro made interval sleeps
    exact ⟨sleeps, by simp [backoffLoop]⟩
  | succ n ih =>
    intro made interval sleeps
    obtain ⟨sl, hsl⟩ := ih (made + 1) (interval * cfg.backoff_factor) (sleeps ++ [interval])
    refine ⟨sl, ?_⟩
    simp only [backoffLoop, h made, if_true]
    rw [show made + 1 + n = made + (n + 1) from by omega] at hsl
    exact hsl

theorem backoffLoop_first_success (cfg : BackoffConfig) (transient : Nat → Bool)
    (ep : Nat → HandlerResponse) :
    ∀ (k fuel made : Nat) (interval : ℚ) (sleeps : List ℚ),
      (∀ i, i < k → transient (ep (made + i)).status = true) →
      transient (ep (made + k)).status = false → k < fuel →
      ∃ sl, backoffLoop cfg transient ep fuel made interval sleeps =
        .ok (ep (made + k), made + k + 1, sl) := by
  intro k
  induction k with
  | zero =>
    intro fuel made interval sleeps hpre hk hfuel
    cases fuel with
    | zero => omega
    | succ n =>
      rw [Nat.add_zero] at hk
      refine ⟨sleeps, ?_⟩
      simp [backoffLoop, hk]
  | succ k ih =>
    intro fuel made interval sleeps hpre hk hfuel
    cases fuel with
    | zero => omega
    | succ n =>
      have h0 : transient (ep made).status = true := by
        have := hpre 0 (by omega)
        simpa using this
      have hpre2 : ∀ i, i < k → transient (ep (made + 1 + i)).status = true := by
        intro i hi
        have := hpre (i + 1) (by omega)
        rw [show made + 1 + i = made + (i + 1) from by omega]
        exact this
      have hk2 : transient (ep (made + 1 + k)).status = false := by
        rw [show made + 1 + k = made + (k + 1) from by omega]
        exact hk
      obtain ⟨sl, hsl⟩ := ih n (made + 1) (interval * cfg.backoff_factor) (sleeps ++ [interval])
        hpre2 hk2 (by omega)
      refine ⟨sl, ?_⟩
      simp only [backoffLoop, h0, if_true]
      rw [show made + 1 + k = made + (k + 1) from by omega] at hsl
      exact hsl

/-- C7: a handler whose backoff schedule allows 3 attempts, against an
endpoint that always answers a transient status, raises the fatal API error
after exactly 3 attempts; when an attempt within the limit succeeds, the
call returns the response of that attempt with no earlier failure surfaced. -/
theorem C7_backoff_termination (cfg : BackoffConfig) (transient : Nat → Bool)
    (ep : Nat → HandlerResponse) (hc : cfg.backoff_count = 3) :
    ((∀ i, transient (ep i).status = true) →
      ∃ sl, requestWithBackoff cfg transient ep =
        .error ("APIError: max backoff attempts exceeded", 3, sl)) ∧
    (∀ k, k < 3 → (∀ i, i < k → transient (ep i).status = true) →
      transient (ep k).status = false →
      ∃ sl, requestWithBackoff cfg transient ep = .ok (ep k, k + 1, sl)) := by
  constructor
  · intro h
    obtain ⟨sl, hsl⟩ := backoffLoop_all_transient cfg transient ep h cfg.backoff_count 0
      cfg.backoff_start []
    refine ⟨sl, ?_⟩
    unfold requestWithBackoff
    rw [hsl, hc]
  · intro k hk hpre hlast
    have hpre0 : ∀ i, i < k → transient (ep (0 + i)).status = true := by
      intro i hi
      rw [Nat.zero_add]
      exact hpre i hi
    have hlast0 : transient (ep (0 + k)).status = false := by
      rw [Nat.zero_add]
      exact hlast
    obtain ⟨sl, hsl⟩ := backoffLoop_first_success cfg transient ep k cfg.backoff_count 0
      cfg.backoff_start [] hpre0 hlast0 (by omega)
    refine ⟨sl, ?_⟩
    unfold requestWithBackoff
    rw [hsl, Nat.zero_add]

/-- The backoff schedule of the C7 scenario: 3 attempts allowed. -/
def cfgBackoffW : BackoffConfig := ⟨1, 2, 3⟩

/-- The transient status classifier: request-timeout responses back off. -/
def transientW : Nat → Bool := fun st => st == 408

/-- An endpoint that always times out. -/
def epAlways408W : Nat → HandlerResponse := fun _ => ⟨408, none⟩

/-- An endpoint that times out twice and then succeeds. -/
def epThirdTimeW : Nat → HandlerResponse := fun i => if i < 2 then ⟨408, none⟩ else ⟨200, none⟩

/-- Witness for C7: the always-failing endpoint exhausts exactly 3 attempts;
the endpoint succeeding on its third attempt returns that response. -/
theorem C7_witness :
    (∃ sl, requestWithBackoff cfgBackoffW transientW epAlways408W =
      .error ("APIError: max backoff attempts exceeded", 3, sl)) ∧
    (∃ sl, requestWithBackoff cfgBackoffW transientW epThirdTimeW =
      .ok (epThirdTimeW 2, 3, sl)) := by
  constructor
  · exact (C7_backoff_termination cfgBackoffW transientW epAlways408W rfl).1 (fun i => rfl)
  · exact (C7_backoff_termination cfgBackoffW transientW epThirdTimeW rfl).2 2 (by omega)
      (fun i hi => by
        match i, hi with
        | 0, _ => rfl
        | 1, _ => rfl)
      rfl

/-- C8: a response carrying a rate-limit hint within the configured ceiling
causes exactly one sleep of the hinted duration followed by one retry; a
hint above the ceiling raises the typed API error immediately with zero
additional attempts; a response without the hint causes no wait and no
retry. -/
theorem C8_rate_limit_ceiling (ceiling : ℚ) (ep : Nat → HandlerResponse) (f : Nat) :
    ((ep 0).retry_after = none →
      rateLimitLoop ceiling ep (f + 2) 0 [] = .ok (ep 0, 1, [])) ∧
    (∀ w, (ep 0).retry_after = some w → w ≤ ceiling → (ep 1).retry_after = none →
      rateLimitLoop ceiling ep (f + 2) 0 [] = .ok (ep 1, 2, [w])) ∧
    (∀ w, (ep 0).retry_after = some w → ceiling < w →
      rateLimitLoop ceiling ep (f + 2) 0 [] =
        .error ("APIError: rate limit wait time exceeds the maximum timeout", 1, [])) := by
  refine ⟨?_, ?_, ?_⟩
  · intro h
    simp [rateLimitLoop, handle_wait_time, h]
  · intro w hw hle hnone
    simp [rateLimitLoop, handle_wait_time, hw, hnone, not_lt.mpr hle]
  · intro w hw hgt
    simp [rateLimitLoop, handle_wait_time, hw, hgt]

/-- An endpoint answering without any rate-limit hint. -/
def epNoHintW : Nat → HandlerResponse := fun _ => ⟨200, none⟩

/-- An endpoint rate-limiting its first call with a short hint. -/
def epShortHintW : Nat → HandlerResponse :=
  fun i => if i = 0 then ⟨429, some 1⟩ else ⟨200, none⟩

/-- An endpoint rate-limiting with a hint beyond any reasonable ceiling. -/
def epLongHintW : Nat → HandlerResponse := fun _ => ⟨429, some 2000⟩

/-- Witness for C8 at a ceiling of 60 seconds: no hint means one call and no
sleep; a 1-second hint means one sleep then one retry; a 2000-second hint
raises at once. -/
theorem C8_witness :
    rateLimitLoop 60 epNoHintW 2 0 [] = .ok (epNoHintW 0, 1, []) ∧
    rateLimitLoop 60 epShortHintW 2 0 [] = .ok (epShortHintW 1, 2, [1]) ∧
    rateLimitLoop 60 epLongHintW 2 0 [] =
      .error ("APIError: rate limit wait time exceeds the maximum timeout", 1, []) :=
  ⟨(C8_rate_limit_ceiling 60 epNoHintW 0).1 rfl,
    (C8_rate_limit_ceiling 60 epShortHintW 0).2.1 1 rfl (by norm_num) rfl,
    (C8_rate_limit_ceiling 60 epLongHintW 0).2.2 2000 rfl (by norm_num)⟩

/-- An authoriser configuration with no token sink path. -/
def cfgNoPathW : AuthConfig :=
  { auth_args := ⟨false⟩, user_args := none, refresh_args := none, test_probe := none,
    test_expiry := 0, token_file_path := none, token_key_path := ["access_token"],
    header_key := "Authorization", header_lead := "Bearer ", header_extra := [] }

/-- The same configuration with a sink path. -/
def cfgPathW : AuthConfig := { cfgNoPathW with token_file_path := some "token.json" }

/-- C9 describes the intended behaviour, which the code misses for
`save_token`: with no sink path, `load_token` is the claimed no-op, but
`save_token` raises a `TypeError` (`open(None, "w")`) instead of being a
no-op; with a path configured, both read and write the token as a flat
key-value document at that path. -/
theorem C9_save_token_no_path_raises :
    APIAuthoriser.load_token cfgNoPathW [] (some [("access_token", .s "a")]) =
      some [("access_token", .s "a")] ∧
    APIAuthoriser.save_token cfgNoPathW [] [("access_token", .s "a")] = .error .typeError ∧
    APIAuthoriser.load_token cfgPathW [("token.json", [("access_token", .s "b")])] none =
      some [("access_token", .s "b")] ∧
    APIAuthoriser.save_token cfgPathW [] [("access_token", .s "b")] =
      .ok [("token.json", [("access_token", .s "b")])] :=
  ⟨rfl, rfl, rfl, rfl⟩
